import Mathlib

/-!
Shallow embedding of the notebook src/fibonacci-musings.ipynb.

The notebook defines two functions:

    def fib(n, f0, f1):
        prev, curr = f0, f1
        for _ in range(n):
            prev, curr = curr, prev + curr
        return prev

    def fib_lim(n, f0, f1):
        return fib(n, f0, f1)/fib(n - 1, f0, f1)

The Python loop `for _ in range(n)` executes `max n 0` times, which is
`Int.toNat n`.  The seeds are modelled over an arbitrary additive type,
instantiated at ℚ (exact arithmetic standing in for the real numbers the
spec talks about) for concrete evaluations.  Python raises
ZeroDivisionError on a zero denominator; `fib_lim` is embedded as an
`Option`, with `none` standing for that failure.  The lru_cache decorator
is a pure memoization of a deterministic function and is not modelled.
-/

/-- One pass of the notebook loop, iterated `k` times on the state pair
`(prev, curr)`: each step performs `prev, curr := curr, prev + curr`. -/
def fibLoop {α : Type} [Add α] : Nat → α × α → α × α
  | 0, p => p
  | k + 1, (prev, curr) => fibLoop k (curr, prev + curr)

/-- The notebook function `fib(n, f0, f1)`: start with `prev, curr = f0, f1`,
run the update `prev, curr = curr, prev + curr` once per element of
`range(n)` (that is, `Int.toNat n` times), and return the final `prev`. -/
def fib {α : Type} [Add α] (n : ℤ) (f0 f1 : α) : α :=
  (fibLoop n.toNat (f0, f1)).1

/-- The notebook function `fib_lim(n, f0, f1) = fib(n, f0, f1)/fib(n-1, f0, f1)`.
Python raises ZeroDivisionError when the denominator is exactly zero; that
failure is embedded as `none`. -/
def fib_lim {α : Type} [Add α] [Zero α] [Div α] [DecidableEq α]
    (n : ℤ) (f0 f1 : α) : Option α :=
  let d := fib (n - 1) f0 f1
  if d = 0 then none else some (fib n f0 f1 / d)

/-- Unfolding lemma for `fib_lim`. -/
theorem fib_lim_eq {α : Type} [Add α] [Zero α] [Div α] [DecidableEq α]
    (n : ℤ) (f0 f1 : α) :
    fib_lim n f0 f1 =
      if fib (n - 1) f0 f1 = 0 then none
      else some (fib n f0 f1 / fib (n - 1) f0 f1) := rfl

/-- The first component of the loop state obeys the Fibonacci recurrence. -/
theorem fibLoop_fst_rec {α : Type} [AddCommMonoid α] (k : Nat) :
    ∀ a b : α,
      (fibLoop (k + 2) (a, b)).1
        = (fibLoop (k + 1) (a, b)).1 + (fibLoop k (a, b)).1 := by
  induction k with
  | zero =>
    intro a b
    show a + b = b + a
    exact add_comm a b
  | succ k ih =>
    intro a b
    show (fibLoop (k + 2) (b, a + b)).1
        = (fibLoop (k + 1) (b, a + b)).1 + (fibLoop k (b, a + b)).1
    exact ih b (a + b)

/-- For a non-positive index the loop body never runs and `fib` returns the
first seed unchanged. -/
theorem fib_of_nonpos {α : Type} [Add α] (n : ℤ) (hn : n ≤ 0) (f0 f1 : α) :
    fib n f0 f1 = f0 := by
  unfold fib
  have h : n.toNat = 0 := by omega
  rw [h]
  rfl

/-- The loop state is linear in the seed pair. -/
theorem fibLoop_linear {α : Type} [CommRing α] (k : Nat) :
    ∀ al be a0 a1 b0 b1 : α,
      fibLoop k (al * a0 + be * b0, al * a1 + be * b1)
        = (al * (fibLoop k (a0, a1)).1 + be * (fibLoop k (b0, b1)).1,
            al * (fibLoop k (a0, a1)).2 + be * (fibLoop k (b0, b1)).2) := by
  induction k with
  | zero =>
    intro al be a0 a1 b0 b1
    rfl
  | succ k ih =>
    intro al be a0 a1 b0 b1
    show fibLoop k (al * a1 + be * b1, al * a0 + be * b0 + (al * a1 + be * b1)) = _
    have h : al * a0 + be * b0 + (al * a1 + be * b1)
        = al * (a0 + a1) + be * (b0 + b1) := by ring
    rw [h, ih al be a1 (a0 + a1) b1 (b0 + b1)]
    rfl

/-- The loop state is homogeneous in the seed pair. -/
theorem fibLoop_smul {α : Type} [CommRing α] (k : Nat) :
    ∀ c a b : α,
      fibLoop k (c * a, c * b)
        = (c * (fibLoop k (a, b)).1, c * (fibLoop k (a, b)).2) := by
  induction k with
  | zero =>
    intro c a b
    rfl
  | succ k ih =>
    intro c a b
    show fibLoop k (c * b, c * a + c * b) = _
    have h : c * a + c * b = c * (a + b) := (mul_add c a b).symm
    rw [h, ih c b (a + b)]
    rfl

/-- `fib` is homogeneous in the seed pair. -/
theorem fib_smul {α : Type} [CommRing α] (n : ℤ) (c f0 f1 : α) :
    fib n (c * f0) (c * f1) = c * fib n f0 f1 := by
  unfold fib
  rw [fibLoop_smul]

/-- The loop commutes with the cast of integer seeds into ℚ. -/
theorem fibLoop_intCast (k : Nat) :
    ∀ a b : ℤ,
      fibLoop k ((a : ℚ), (b : ℚ))
        = (((fibLoop k (a, b)).1 : ℚ), ((fibLoop k (a, b)).2 : ℚ)) := by
  induction k with
  | zero =>
    intro a b
    rfl
  | succ k ih =>
    intro a b
    show fibLoop k ((b : ℚ), (a : ℚ) + (b : ℚ)) = _
    have h : (a : ℚ) + (b : ℚ) = ((a + b : ℤ) : ℚ) := (Int.cast_add a b).symm
    rw [h, ih b (a + b)]
    rfl

/-- `fib` on integer seeds cast into ℚ is the cast of the integer `fib`. -/
theorem fib_intCast (n : ℤ) (a b : ℤ) :
    fib n (a : ℚ) (b : ℚ) = ((fib n a b : ℤ) : ℚ) := by
  unfold fib
  rw [fibLoop_intCast]

/-- The recurrence at integer indices: for `2 ≤ n` the term at `n` is the sum
of the two preceding terms. -/
theorem fib_rec {α : Type} [AddCommMonoid α] (n : ℤ) (hn : 2 ≤ n) (f0 f1 : α) :
    fib n f0 f1 = fib (n - 1) f0 f1 + fib (n - 2) f0 f1 := by
  obtain ⟨k, hk⟩ : ∃ k : ℕ, n = (k : ℤ) + 2 := ⟨(n - 2).toNat, by omega⟩
  subst hk
  unfold fib
  have h1 : ((k : ℤ) + 2).toNat = k + 2 := by omega
  have h2 : ((k : ℤ) + 2 - 1).toNat = k + 1 := by omega
  have h3 : ((k : ℤ) + 2 - 2).toNat = k := by omega
  rw [h1, h2, h3]
  exact fibLoop_fst_rec k f0 f1

/-- Exact value of the numerator term for the seed pair of cell 4 of the
notebook, rescaled to integers: `(4, -2.47214) = (1/100000) * (400000, -247214)`. -/
theorem fib_exc_30 : fib 30 (4 : ℚ) (-247214/100000) = -4207/1250 := by
  have h4 : (4 : ℚ) = (1/100000) * ((400000 : ℤ) : ℚ) := by norm_num
  have hf1 : (-247214/100000 : ℚ) = (1/100000) * ((-247214 : ℤ) : ℚ) := by norm_num
  have hz : fib 30 (400000 : ℤ) (-247214) = -336560 := by decide
  rw [h4, hf1, fib_smul, fib_intCast, hz]
  norm_num

/-- Exact value of the denominator term for the same seed pair. -/
theorem fib_exc_29 : fib 29 (4 : ℚ) (-247214/100000) = -104003/50000 := by
  have h4 : (4 : ℚ) = (1/100000) * ((400000 : ℤ) : ℚ) := by norm_num
  have hf1 : (-247214/100000 : ℚ) = (1/100000) * ((-247214 : ℤ) : ℚ) := by norm_num
  have hz : fib 29 (400000 : ℤ) (-247214) = -208006 := by decide
  rw [h4, hf1, fib_smul, fib_intCast, hz]
  norm_num

/-- Exact value of the step-30 quotient for the seed pair `(4, -2.47214)`. -/
theorem fib_lim_exc_eval :
    fib_lim 30 (4 : ℚ) (-247214/100000) = some (168280/104003) := by
  rw [fib_lim_eq]
  have h29 : (30 : ℤ) - 1 = 29 := by norm_num
  rw [h29, fib_exc_30, fib_exc_29]
  norm_num

/-- Exact value of the classic Fibonacci term at index 30 of the embedding. -/
theorem fib_golden_30 : fib 30 (1 : ℚ) 1 = 1346269 := by
  have hz : fib 30 (1 : ℤ) 1 = 1346269 := by decide
  have h := fib_intCast 30 1 1
  rw [hz] at h
  simpa using h

/-- Exact value of the classic Fibonacci term at index 29 of the embedding. -/
theorem fib_golden_29 : fib 29 (1 : ℚ) 1 = 832040 := by
  have hz : fib 29 (1 : ℤ) 1 = 832040 := by decide
  have h := fib_intCast 29 1 1
  rw [hz] at h
  simpa using h

/-- Exact value of the step-30 quotient for the seed pair `(1, 1)`. -/
theorem fib_lim_golden_eval :
    fib_lim 30 (1 : ℚ) 1 = some (1346269/832040) := by
  rw [fib_lim_eq]
  have h29 : (30 : ℤ) - 1 = 29 := by norm_num
  rw [h29, fib_golden_30, fib_golden_29]
  norm_num

/-- Claim C1: base cases of the recurrence evaluator: for all seeds `f0, f1`,
`fib 0 f0 f1` returns exactly `f0` and `fib 1 f0 f1` returns exactly `f1`. -/
theorem fib_base_cases {α : Type} [Add α] (f0 f1 : α) :
    fib 0 f0 f1 = f0 ∧ fib 1 f0 f1 = f1 :=
  ⟨rfl, rfl⟩

/-- Witness for C1 at the concrete seed pair `(3, 5)` over ℚ. -/
theorem fib_base_cases_witness :
    fib 0 (3 : ℚ) 5 = 3 ∧ fib 1 (3 : ℚ) 5 = 5 :=
  fib_base_cases 3 5

/-- Claim C2: recurrence law: for every integer `n ≥ 2` and all seeds,
`fib n f0 f1 = fib (n-1) f0 f1 + fib (n-2) f0 f1`, exactly (the embedded
exact arithmetic satisfies the equation on the nose, which is stronger than
the relative-error tolerance the spec allows). -/
theorem fib_recurrence_law {α : Type} [AddCommMonoid α] (n : ℤ) (hn : 2 ≤ n)
    (f0 f1 : α) :
    fib n f0 f1 = fib (n - 1) f0 f1 + fib (n - 2) f0 f1 :=
  fib_rec n hn f0 f1

/-- Witness for C2 at `n = 5` and the concrete seed pair `(1, 2)` over ℚ. -/
theorem fib_recurrence_law_witness :
    (2 : ℤ) ≤ 5 ∧ fib 5 (1 : ℚ) 2 = fib (5 - 1) (1 : ℚ) 2 + fib (5 - 2) (1 : ℚ) 2 :=
  ⟨by norm_num, fib_recurrence_law 5 (by norm_num) 1 2⟩

/-- Claim C3: quotient contract: for every integer `n ≥ 1` and all seeds with
`fib (n-1) f0 f1` nonzero, `fib_lim n f0 f1` returns
`fib n f0 f1 / fib (n-1) f0 f1`. -/
theorem fib_lim_contract {α : Type} [Add α] [Zero α] [Div α] [DecidableEq α]
    (n : ℤ) (hn : 1 ≤ n) (f0 f1 : α) (hd : fib (n - 1) f0 f1 ≠ 0) :
    fib_lim n f0 f1 = some (fib n f0 f1 / fib (n - 1) f0 f1) := by
  rw [fib_lim_eq, if_neg hd]

/-- Witness for C3 at `n = 1` and the concrete seed pair `(2, 3)` over ℚ. -/
theorem fib_lim_contract_witness :
    fib_lim 1 (2 : ℚ) 3 = some (fib 1 (2 : ℚ) 3 / fib (1 - 1) (2 : ℚ) 3) :=
  fib_lim_contract 1 (by norm_num) 2 3 (by decide)

/-- Claim C4: `fib_lim n f0 f1` fails with the division-by-zero condition
(embedded as `none`) exactly when `fib (n-1) f0 f1` is exactly zero; in
particular `fib_lim 1 0 5` fails because `fib 0 0 5 = 0`. -/
theorem fib_lim_div_by_zero :
    (∀ (n : ℤ) (f0 f1 : ℚ), fib_lim n f0 f1 = none ↔ fib (n - 1) f0 f1 = 0)
      ∧ fib_lim 1 (0 : ℚ) 5 = none := by
  constructor
  · intro n f0 f1
    rw [fib_lim_eq]
    split_ifs with h <;> simp [h]
  · decide

/-- Claim C5 counterexample: contrary to the claim, the code raises no
InvalidArgument condition: `fib (-1) 0 1` returns the value `0` (the loop
body runs zero times), and `fib_lim 0 2 3` returns the value `1` rather
than failing. -/
theorem fib_invalid_argument_cex :
    fib (-1 : ℤ) (0 : ℚ) 1 = 0 ∧ fib_lim 0 (2 : ℚ) 3 = some 1 := by
  constructor
  · rfl
  · show (if (2 : ℚ) = 0 then none else some ((2 : ℚ) / 2)) = some 1
    norm_num

/-- Claim C5 amended: for every integer `n < 0`, `fib n f0 f1` returns `f0`
without raising any condition, and for every integer `n < 1`, `fib_lim`
raises no InvalidArgument condition: it returns `f0 / f0 = 1` when `f0 ≠ 0`
and fails with the division-by-zero condition when `f0 = 0`. -/
theorem fib_no_invalid_argument (n : ℤ) (f0 f1 : ℚ) :
    (n < 0 → fib n f0 f1 = f0)
      ∧ (n < 1 → fib_lim n f0 f1 = if f0 = 0 then none else some 1) := by
  constructor
  · intro hn
    exact fib_of_nonpos n (le_of_lt hn) f0 f1
  · intro hn
    have h0 : fib n f0 f1 = f0 := fib_of_nonpos n (by omega) f0 f1
    have h1 : fib (n - 1) f0 f1 = f0 := fib_of_nonpos (n - 1) (by omega) f0 f1
    rw [fib_lim_eq, h0, h1]
    split_ifs with h
    · rfl
    · rw [div_self h]

/-- Witness for the amended C5 at `n = -1` with seeds `(0, 1)` and at `n = 0`
with seeds `(3, 4)` over ℚ. -/
theorem fib_no_invalid_argument_witness :
    fib (-1 : ℤ) (0 : ℚ) 1 = 0 ∧ fib_lim 0 (3 : ℚ) 4 = some 1 := by
  constructor
  · exact (fib_no_invalid_argument (-1) 0 1).1 (by norm_num)
  · have h := (fib_no_invalid_argument 0 3 4).2 (by norm_num)
    rw [if_neg (by norm_num : (3 : ℚ) ≠ 0)] at h
    exact h

/-- Claim C6 counterexample: `fib_lim 30 4 (-2.47214)` evaluates exactly to
`168280/104003 ≈ 1.61803`, which is not within `1e-3` of `0.618034`.  The
decimal seed `-2.47214` only approximates `-4/φ`, and the deviation grows
like `φ^n`, so by step 30 the quotient is back near `φ`. -/
theorem fib_lim_exceptional_axis_cex :
    fib_lim 30 (4 : ℚ) (-247214/100000) = some (168280/104003)
      ∧ ¬ |(168280 : ℚ)/104003 - 618034/1000000| < 1/1000 := by
  refine ⟨fib_lim_exc_eval, ?_⟩
  intro hcon
  rw [abs_lt] at hcon
  have h2 := hcon.2
  norm_num at h2

/-- Claim C6 amended: `fib_lim 30 4 (-2.47214)` evaluates exactly to
`168280/104003` and is within `1e-3` of `1.6180339887`, not of `0.618034`:
over exact arithmetic the literal seed `-2.47214` is off the exceptional
axis, so the quotient at step 30 is near `φ`. -/
theorem fib_lim_exceptional_axis_amended :
    fib_lim 30 (4 : ℚ) (-247214/100000) = some (168280/104003)
      ∧ |(168280 : ℚ)/104003 - 16180339887/10000000000| < 1/1000 := by
  refine ⟨fib_lim_exc_eval, ?_⟩
  rw [abs_lt]
  constructor <;> norm_num

/-- Claim C7: golden-ratio convergence: for the classic seed pair `(1, 1)`,
`fib_lim 30 1 1` evaluates exactly to `1346269/832040`, which is within
`1e-6` of `1.6180339887`. -/
theorem fib_lim_golden_convergence :
    fib_lim 30 (1 : ℚ) 1 = some (1346269/832040)
      ∧ |(1346269 : ℚ)/832040 - 16180339887/10000000000| < 1/1000000 := by
  refine ⟨fib_lim_golden_eval, ?_⟩
  rw [abs_lt]
  constructor <;> norm_num

/-- Claim C8: linearity: for every integer `n ≥ 0`, seed pairs `(a0, a1)` and
`(b0, b1)`, and scalars `al, be`, the term at the linear combination of the
seed pairs is the linear combination of the terms, exactly over the embedded
arithmetic. -/
theorem fib_linearity {α : Type} [CommRing α] (n : ℤ) (hn : 0 ≤ n)
    (a0 a1 b0 b1 al be : α) :
    fib n (al * a0 + be * b0) (al * a1 + be * b1)
      = al * fib n a0 a1 + be * fib n b0 b1 := by
  unfold fib
  rw [fibLoop_linear]

/-- Witness for C8 at `n = 2`, seed pairs `(1, 2)` and `(3, 4)`, scalars
`5` and `7` over ℚ. -/
theorem fib_linearity_witness :
    fib 2 ((5 : ℚ) * 1 + 7 * 3) ((5 : ℚ) * 2 + 7 * 4)
      = 5 * fib 2 (1 : ℚ) 2 + 7 * fib 2 (3 : ℚ) 4 :=
  fib_linearity 2 (by norm_num) 1 2 3 4 5 7

/-- Claim C9: implicit negative-index behavior: for every integer `n ≤ 0` and
all seeds, `fib n f0 f1` returns `f0` (the loop body executes zero times, no
arithmetic and no error). -/
theorem fib_nonpos_returns_f0 {α : Type} [Add α] (n : ℤ) (hn : n ≤ 0)
    (f0 f1 : α) :
    fib n f0 f1 = f0 :=
  fib_of_nonpos n hn f0 f1

/-- Witness for C9: `fib (-1) 0 1 = 0`. -/
theorem fib_nonpos_returns_f0_witness : fib (-1 : ℤ) (0 : ℚ) 1 = 0 :=
  fib_nonpos_returns_f0 (-1) (by norm_num) 0 1

/-- Claim C10: scale invariance of the quotient: for every integer `n ≥ 1`,
every nonzero scalar `c`, and seeds with `fib (n-1) f0 f1` nonzero, scaling
both seeds by `c` leaves `fib_lim` unchanged, exactly over the embedded
arithmetic. -/
theorem fib_lim_scale_invariance {α : Type} [Field α] [DecidableEq α]
    (n : ℤ) (hn : 1 ≤ n) (c f0 f1 : α) (hc : c ≠ 0)
    (hd : fib (n - 1) f0 f1 ≠ 0) :
    fib_lim n (c * f0) (c * f1) = fib_lim n f0 f1 := by
  have h1 : fib n (c * f0) (c * f1) = c * fib n f0 f1 := fib_smul n c f0 f1
  have h2 : fib (n - 1) (c * f0) (c * f1) = c * fib (n - 1) f0 f1 :=
    fib_smul (n - 1) c f0 f1
  rw [fib_lim_eq, fib_lim_eq, h1, h2, if_neg (mul_ne_zero hc hd), if_neg hd,
    mul_div_mul_left _ _ hc]

/-- Witness for C10 at `n = 1`, scalar `2`, seeds `(1, 3)` over ℚ. -/
theorem fib_lim_scale_invariance_witness :
    fib_lim 1 ((2 : ℚ) * 1) ((2 : ℚ) * 3) = fib_lim 1 (1 : ℚ) 3 :=
  fib_lim_scale_invariance 1 (by norm_num) 2 1 3 (by norm_num) (by decide)
